import Mathlib

/-!
Verification of the repository-data fetch and readme-rendering pipeline of a
portfolio site.  The embedded code is `src/components/Projects.js`
(repository lister and list-context readme fetcher),
`src/components/ProjectModal.js` (detail-context readme fetcher) and
`src/components/RepoLanguages.js` (language tagger).  Network fetches are
modelled by explicit outcome values; parsed HTML documents are modelled by
their list of image elements.
-/

/-- Character-level prefix test, the semantics of the JS `s.startsWith(p)`. -/
def strStartsWith (s p : String) : Bool :=
  p.data.isPrefixOf s.data

/-- Character-level substring test, the semantics of the JS `s.includes(p)`. -/
def strIncludes (s p : String) : Bool :=
  decide (List.IsInfix p.data s.data)

/-- Semantics of the JS fallback `x || d` on an optional string field:
`null`/`undefined` (here `none`) and the empty string are falsy. -/
def jsOrElse (s : Option String) (d : String) : String :=
  match s with
  | none => d
  | some v => if v = "" then d else v

/-- The fields of a GitHub repository record that the embedded components
read: `repo.id`, `repo.owner.login`, `repo.name`, `repo.fork`,
`repo.default_branch`.  `default_branch` is optional because both fetchers
guard it with `|| "main"`. -/
structure Repo where
  id : Nat
  owner_login : String
  name : String
  fork : Bool
  default_branch : Option String
deriving DecidableEq

/-- An `img` element of a parsed readme document, reduced to the one
attribute the code reads: `img.getAttribute('src')`, which is `none` when
the element has no `src` attribute (JS `null`). -/
structure Img where
  src : Option String
deriving DecidableEq

/-- The URL shape stated by the spec for a rewritten image reference:
raw host, owner, repository name, branch, path. -/
def specRawUrl (owner name branch p : String) : String :=
  "https://raw.githubusercontent.com/" ++ owner ++ "/" ++ name ++ "/" ++ branch ++ "/" ++ p

namespace Projects

/-- Projects.js line 49: `reposData.filter(repo => !repo.fork).slice(0, 6)`. -/
def listRepos (reposData : List Repo) : List Repo :=
  (reposData.filter fun repo => !repo.fork).take 6

/-- Projects.js line 84: `src.replace(/^\//, '')`.  The regex is anchored
and not global, so exactly one leading slash is removed. -/
def stripSlash (s : String) : String :=
  if strStartsWith s "/" then s.drop 1 else s

/-- Projects.js lines 74-78, the list-context image filter: keep an image
iff its `src` attribute exists and contains the substring `/assets/`. -/
def imgQualifies (img : Img) : Bool :=
  match img.src with
  | none => false
  | some s => strIncludes s "/assets/"

/-- Projects.js lines 83-84: the list-context URL construction.  The raw
URL is built unconditionally (there is no absolute-URL test on this path)
and only a leading `/` is stripped from the source. -/
def rewriteUrl (username : String) (repo : Repo) (src : String) : String :=
  "https://raw.githubusercontent.com/" ++ username ++ "/" ++ repo.name ++ "/"
    ++ jsOrElse repo.default_branch "main" ++ "/" ++ stripSlash src

/-- Projects.js lines 72-85: filter the parsed document to qualifying
images, then map each to its constructed URL. -/
def extractUrls (username : String) (repo : Repo) (images : List Img) : List String :=
  (images.filter imgQualifies).map fun img =>
    rewriteUrl username repo (img.src.getD "")

/-- Settled outcome of one list-context readme fetch: a thrown transport
error, or a response with its `ok` flag and parsed body. -/
inductive ReadmeFetch where
  | netError
  | response (ok : Bool) (doc : List Img)
deriving DecidableEq

/-- A repository as published to the list view: the repository record with
its `imageUrls` array attached. -/
structure RepoView where
  repo : Repo
  imageUrls : List String
deriving DecidableEq

/-- Projects.js lines 53-92, one arm of the `Promise.all` map: a non-ok
response returns the repo with an empty image set (line 63), a thrown
error is caught and does the same (lines 89-91), and a successful
response attaches the extracted URLs (line 88). -/
def repoWithImages (username : String) (repo : Repo) (f : ReadmeFetch) : RepoView :=
  match f with
  | .netError => ⟨repo, []⟩
  | .response ok doc => if ok then ⟨repo, extractUrls username repo doc⟩ else ⟨repo, []⟩

/-- Projects.js lines 52-93: `await Promise.all(reposData.map(...))`.  The
published list is assembled from every repository paired with its settled
fetch outcome, in order. -/
def assembleList (username : String) (items : List (Repo × ReadmeFetch)) : List RepoView :=
  items.map fun it => repoWithImages username it.1 it.2

end Projects

namespace ProjectModal

/-- ProjectModal.js line 64: `src.replace(/^\.?\//, '')`.  The anchored
regex removes one leading `./` or one leading `/`. -/
def stripDotSlash (s : String) : String :=
  if strStartsWith s "./" then s.drop 2
  else if strStartsWith s "/" then s.drop 1
  else s

/-- ProjectModal.js lines 60-66, the detail-context per-image rewrite: a
source starting with `http` is left unchanged, anything else gets the raw
URL built from `repo.owner.login`, `repo.name` and the default branch. -/
def rewriteSrc (repo : Repo) (src : String) : String :=
  if strStartsWith src "http" then src
  else "https://raw.githubusercontent.com/" ++ repo.owner_login ++ "/" ++ repo.name
    ++ "/" ++ jsOrElse repo.default_branch "main" ++ "/" ++ stripDotSlash src

/-- ProjectModal.js lines 59-67, the `forEach` over the document images.
When `getAttribute('src')` returned `null`, `src.startsWith('http')`
throws a TypeError, aborting the whole rewrite; otherwise every image is
rewritten in order. -/
def rewriteImages (repo : Repo) : List Img → Except Unit (List Img)
  | [] => .ok []
  | img :: rest =>
    match img.src with
    | none => .error ()
    | some s =>
      match rewriteImages repo rest with
      | .error e => .error e
      | .ok imgs => .ok (⟨some (rewriteSrc repo s)⟩ :: imgs)

/-- Settled outcome of the detail-context readme fetch. -/
inductive DetailFetch where
  | netError
  | response (ok : Bool) (doc : List Img)
deriving DecidableEq

/-- What the modal publishes into `readmeHtml`: the fixed placeholder, or a
document with its (possibly rewritten) images. -/
inductive Published where
  | placeholder
  | document (images : List Img)
deriving DecidableEq

/-- ProjectModal.js line 73: the fixed placeholder markup. -/
def placeholderHtml : String :=
  "<p>Could not load README for this project.</p>"

/-- ProjectModal.js lines 36-78, `fetchReadme`.  The response status is
never inspected (`readmeResponse.ok` is not read): only a thrown error
reaches the catch, which publishes the placeholder; any response body,
success or not, is parsed, rewritten and published. -/
def fetchReadme (repo : Repo) (f : DetailFetch) : Published :=
  match f with
  | .netError => .placeholder
  | .response _ doc =>
    match rewriteImages repo doc with
    | .error _ => .placeholder
    | .ok imgs => .document imgs

/-- The modal component state: the current `repo` prop, the readme fetches
spawned by the effect that are still in flight (each closure captured the
repo it was spawned for), the published `readmeHtml`, and `loading`. -/
structure ModalState where
  currentRepo : Option Repo
  inFlight : List Repo
  readmeHtml : Published
  loading : Bool
deriving DecidableEq

/-- Events of the modal lifecycle: the `repo` prop changing (the effect on
lines 33-81 re-runs), and one in-flight fetch settling. -/
inductive MEvent where
  | select (repo : Option Repo)
  | settle (repo : Repo) (f : DetailFetch)
deriving DecidableEq

/-- One step of the modal machinery, ProjectModal.js lines 33-81.
On `select none` the effect returns early (line 34): no fetch is spawned.
On `select (some r)` the effect spawns a fetch for `r` and sets
`loading` (line 38).  On `settle r f` the closure spawned for `r` writes
`setReadmeHtml`/`setLoading` unconditionally: the effect has no cleanup
or staleness guard, so the write happens whatever the current prop is. -/
def step (s : ModalState) (e : MEvent) : ModalState :=
  match e with
  | .select none => { s with currentRepo := none }
  | .select (some r) =>
      { s with currentRepo := some r, inFlight := s.inFlight ++ [r], loading := true }
  | .settle r f =>
      if r ∈ s.inFlight then
        { s with inFlight := s.inFlight.erase r
               , readmeHtml := fetchReadme r f
               , loading := false }
      else s

/-- The initial modal state: no repo selected, nothing in flight,
`readmeHtml` the empty document (`useState('')`), `loading` true. -/
def initState : ModalState :=
  { currentRepo := none, inFlight := [], readmeHtml := .document [], loading := true }

/-- Run a sequence of modal events from the initial state. -/
def run (events : List MEvent) : ModalState :=
  events.foldl step initState

end ProjectModal

namespace RepoLanguages

/-- Settled outcome of the languages fetch: a thrown transport error, or a
response with its `ok` flag and its body decoded as an ordered key/value
mapping (`none` when `response.json()` rejects on an undecodable body). -/
inductive LangFetch where
  | netError
  | response (ok : Bool) (body : Option (List (String × Nat)))
deriving DecidableEq

/-- RepoLanguages.js lines 68-83, `fetchLanguages`.  `response.ok` is never
checked; a thrown error (transport failure or `json()` rejecting) is
caught and leaves the state at the initial `[]`; otherwise
`Object.keys(data).slice(0, 3)` is stored. -/
def fetchLanguages (f : LangFetch) : List String :=
  match f with
  | .netError => []
  | .response _ body =>
    match body with
    | none => []
    | some data => (data.map Prod.fst).take 3

/-- RepoLanguages.js lines 89-103: with an empty language list the
component returns `null` (renders nothing), otherwise it renders the tag
list. -/
def render (languages : List String) : Option (List String) :=
  if languages.length = 0 then none else some languages

end RepoLanguages

/-- A concrete repository record used for witnesses and counterexamples. -/
def sampleRepo : Repo :=
  { id := 1, owner_login := "tyler-bravin", name := "Portfolio-Website"
  , fork := false, default_branch := some "main" }

/-- A second concrete repository, distinct from `sampleRepo`. -/
def otherRepo : Repo :=
  { id := 2, owner_login := "tyler-bravin", name := "Other-Project"
  , fork := false, default_branch := some "master" }

/-- A concrete event trace: the modal is pointed at `sampleRepo`, then at
`otherRepo` while the first fetch is still in flight; the fetch for
`otherRepo` settles first and the stale fetch for `sampleRepo` settles
last. -/
def staleTrace : List ProjectModal.MEvent :=
  [ .select (some sampleRepo)
  , .select (some otherRepo)
  , .settle otherRepo (.response true [⟨some "b.png"⟩])
  , .settle sampleRepo (.response true [⟨some "a.png"⟩]) ]

/-- The modal state after selecting `sampleRepo` and then `otherRepo`, with
both fetches still in flight. -/
def midState : ProjectModal.ModalState :=
  ProjectModal.run [.select (some sampleRepo), .select (some otherRepo)]

/-- A concrete listing response with 8 non-fork repositories and 2 forks. -/
def tenRepos : List Repo :=
  [ ⟨1, "o", "r1", false, none⟩, ⟨2, "o", "r2", false, none⟩
  , ⟨3, "o", "rf1", true, none⟩, ⟨4, "o", "r3", false, none⟩
  , ⟨5, "o", "r4", false, none⟩, ⟨6, "o", "r5", false, none⟩
  , ⟨7, "o", "rf2", true, none⟩, ⟨8, "o", "r6", false, none⟩
  , ⟨9, "o", "r7", false, none⟩, ⟨10, "o", "r8", false, none⟩ ]

/-- A concrete parsed readme document with 2 qualifying images (src contains
`/assets/`) and 3 non-qualifying ones (badge URL without the segment, bare
path, missing src). -/
def fiveImgs : List Img :=
  [ ⟨some "./assets/shot1.png"⟩
  , ⟨some "https://img.shields.io/badge/build.svg"⟩
  , ⟨some "/assets/shot2.png"⟩
  , ⟨some "logo.png"⟩
  , ⟨none⟩ ]

/-- Helper: a prefix of `a` is a prefix of `a ++ b`. -/
theorem strStartsWith_append_left (a b p : String) (h : strStartsWith a p = true) :
    strStartsWith (a ++ b) p = true := by
  unfold strStartsWith at h ⊢
  rw [String.data_append]
  rw [ List.isPrefixOf_iff_prefix] at h ⊢
  exact h.trans (List.prefix_append _ _)

/-- Helper: every constructed raw-content URL starts with `http`. -/
theorem rawUrl_startsWith_http (o n b p : String) :
    strStartsWith
      ("https://raw.githubusercontent.com/" ++ o ++ "/" ++ n ++ "/" ++ b ++ "/" ++ p)
      "http" = true := by
  repeat
    apply strStartsWith_append_left
  decide

/-- Helper: the list-context per-repository step never changes the
repository record itself, whatever the fetch outcome. -/
theorem repoWithImages_repo (username : String) (r : Repo) (f : Projects.ReadmeFetch) :
    (Projects.repoWithImages username r f).repo = r := by
  cases f with
  | netError => rfl
  | response ok doc => cases ok <;> simp [Projects.repoWithImages]

/-- Helper: the detail-context rewrite faults whenever some image of the
document has no `src` attribute. -/
theorem rewriteImages_error_of_none (repo : Repo) (doc : List Img)
    (h : ∃ img ∈ doc, img.src = none) :
    ProjectModal.rewriteImages repo doc = .error () := by
  induction doc with
  | nil => obtain ⟨img, hm, _⟩ := h; cases hm
  | cons hd tl ih =>
    obtain ⟨img, hm, hsrc⟩ := h
    cases hm with
    | head =>
      simp [ProjectModal.rewriteImages, hsrc]
    | tail _ hm' =>
      cases hhd : hd.src with
      | none => simp [ProjectModal.rewriteImages, hhd]
      | some s =>
        have htl := ih ⟨img, hm', hsrc⟩
        simp [ProjectModal.rewriteImages, hhd, htl]

/-- C1: the image-URL rewrite.  The claim as stated fails in the list
context (absolute URLs are not returned unchanged and a leading `./` is
not stripped there); this counterexample shows both failures at concrete
inputs. -/
theorem c1_counterexample :
    Projects.rewriteUrl "tyler-bravin" sampleRepo "https://example.com/assets/pic.png"
        ≠ "https://example.com/assets/pic.png"
    ∧ Projects.rewriteUrl "tyler-bravin" sampleRepo "./assets/pic.png"
        ≠ specRawUrl "tyler-bravin" "Portfolio-Website" "main" "assets/pic.png" := by
  decide

/-- C1 (amended): in the detail context a source starting with `http` is
returned unchanged and any other source is rewritten to the raw-content
URL with a leading `./` or `/` stripped and the default branch falling
back to `main`; in the list context every retained source, absolute or
not, is unconditionally rewritten to the raw-content URL with only a
leading `/` stripped. -/
theorem c1_image_url_rewrite (repo : Repo) (username src : String) :
    (strStartsWith src "http" = true → ProjectModal.rewriteSrc repo src = src)
    ∧ (strStartsWith src "http" = false →
        ProjectModal.rewriteSrc repo src
          = specRawUrl repo.owner_login repo.name (jsOrElse repo.default_branch "main")
              (ProjectModal.stripDotSlash src))
    ∧ Projects.rewriteUrl username repo src
        = specRawUrl username repo.name (jsOrElse repo.default_branch "main")
            (Projects.stripSlash src) := by
  refine ⟨fun h => ?_, fun h => ?_, ?_⟩
  · simp [ProjectModal.rewriteSrc, h]
  · simp [ProjectModal.rewriteSrc, h, specRawUrl]
  · simp [Projects.rewriteUrl, specRawUrl]

/-- C1 witness: the amended rewrite evaluated at a concrete absolute URL. -/
theorem c1_witness :
    strStartsWith "https://example.com/a.png" "http" = true
    ∧ ProjectModal.rewriteSrc sampleRepo "https://example.com/a.png"
        = "https://example.com/a.png" :=
  ⟨by decide,
   (c1_image_url_rewrite sampleRepo "tyler-bravin" "https://example.com/a.png").1 (by decide)⟩

/-- C2: the lister removes forks, truncates to at most six and preserves
the received order; a response whose fork-free part has 8 entries yields
exactly 6. -/
theorem c2_lister (reposData : List Repo) :
    Projects.listRepos reposData = (reposData.filter fun r => !r.fork).take 6
    ∧ (Projects.listRepos reposData).Sublist reposData
    ∧ (∀ r, r ∈ Projects.listRepos reposData → r.fork = false)
    ∧ ((reposData.filter fun r => !r.fork).length = 8 →
        (Projects.listRepos reposData).length = 6) := by
  refine ⟨rfl, ?_, ?_, ?_⟩
  · exact (List.take_sublist _ _).trans (List.filter_sublist _)
  · intro r hr
    have h1 : r ∈ reposData.filter fun r => !r.fork := List.mem_of_mem_take hr
    have h2 := (List.mem_filter.mp h1).2
    simpa using h2
  · intro h
    simp [Projects.listRepos, List.length_take, h]

/-- C2 witness: the lister evaluated on a concrete response of 8 non-fork
repositories and 2 forks. -/
theorem c2_witness :
    (tenRepos.filter fun r => !r.fork).length = 8
    ∧ (Projects.listRepos tenRepos).length = 6 :=
  ⟨by decide, (c2_lister tenRepos).2.2.2 (by decide)⟩

/-- C3: the list-context image filter keeps exactly the images whose src
exists and contains `/assets/`, in document order; on the concrete
5-image document the 2 qualifying images are returned in order. -/
theorem c3_list_image_filter (images : List Img) :
    (images.filter Projects.imgQualifies).Sublist images
    ∧ (∀ img, img ∈ images.filter Projects.imgQualifies →
        ∃ s, img.src = some s ∧ strIncludes s "/assets/" = true)
    ∧ (∀ img, img ∈ images → Projects.imgQualifies img = true →
        img ∈ images.filter Projects.imgQualifies)
    ∧ fiveImgs.filter Projects.imgQualifies
        = [⟨some "./assets/shot1.png"⟩, ⟨some "/assets/shot2.png"⟩] := by
  refine ⟨List.filter_sublist _, ?_, ?_, by decide⟩
  · intro img hm
    have hq := (List.mem_filter.mp hm).2
    cases himg : img.src with
    | none => simp [Projects.imgQualifies, himg] at hq
    | some s =>
      refine ⟨s, rfl, ?_⟩
      simpa [Projects.imgQualifies, himg] using hq
  · intro img hm hq
    exact List.mem_filter.mpr ⟨hm, hq⟩

/-- C3 witness: the filter characterisation evaluated at a concrete
qualifying image of the concrete document. -/
theorem c3_witness :
    (⟨some "./assets/shot1.png"⟩ : Img) ∈ fiveImgs.filter Projects.imgQualifies
    ∧ ∃ s, (Img.mk (some "./assets/shot1.png")).src = some s
        ∧ strIncludes s "/assets/" = true :=
  ⟨by decide,
   (c3_list_image_filter fiveImgs).2.1 ⟨some "./assets/shot1.png"⟩ (by decide)⟩

/-- C4: idempotence of the rewrite.  The claim as stated fails in the list
context: re-applying the list rewrite to its own output prepends the raw
prefix a second time. -/
theorem c4_counterexample :
    Projects.rewriteUrl "tyler-bravin" sampleRepo
        (Projects.rewriteUrl "tyler-bravin" sampleRepo "/assets/pic.png")
      ≠ Projects.rewriteUrl "tyler-bravin" sampleRepo "/assets/pic.png" := by
  decide

/-- C4 (amended): the detail-context rewrite is idempotent (its output
always starts with `http`, so a second application returns it unchanged);
the list-context rewrite is not idempotent — at a concrete already
rewritten URL the second application prepends the raw prefix again. -/
theorem c4_rewrite_idempotence (repo : Repo) (src : String) :
    ProjectModal.rewriteSrc repo (ProjectModal.rewriteSrc repo src)
        = ProjectModal.rewriteSrc repo src
    ∧ Projects.rewriteUrl "tyler-bravin" sampleRepo
        (Projects.rewriteUrl "tyler-bravin" sampleRepo "/assets/pic.png")
      = "https://raw.githubusercontent.com/tyler-bravin/Portfolio-Website/main/https://raw.githubusercontent.com/tyler-bravin/Portfolio-Website/main/assets/pic.png" := by
  constructor
  · by_cases h : strStartsWith src "http" = true
    · simp [ProjectModal.rewriteSrc, h]
    · simp only [Bool.not_eq_true] at h
      simp [ProjectModal.rewriteSrc, h, rawUrl_startsWith_http]
  · decide

/-- C5: in the list context one repository's readme failure is isolated.
The assembled list is position-local (changing one item leaves the others
and their order intact), every repository of the response appears in
order, and both failure modes (thrown error, non-ok status) publish that
repository with an empty image set. -/
theorem c5_failure_isolation (username : String) (xs ys : List (Repo × Projects.ReadmeFetch))
    (a : Repo × Projects.ReadmeFetch) :
    Projects.assembleList username (xs ++ a :: ys)
        = Projects.assembleList username xs
          ++ Projects.repoWithImages username a.1 a.2 :: Projects.assembleList username ys
    ∧ (Projects.assembleList username (xs ++ a :: ys)).map Projects.RepoView.repo
        = (xs ++ a :: ys).map Prod.fst
    ∧ Projects.repoWithImages username a.1 .netError = ⟨a.1, []⟩
    ∧ (∀ doc, Projects.repoWithImages username a.1 (.response false doc) = ⟨a.1, []⟩) := by
  refine ⟨?_, ?_, rfl, fun doc => ?_⟩
  · simp [Projects.assembleList]
  · have hfun : (Projects.RepoView.repo ∘ fun it : Repo × Projects.ReadmeFetch =>
        Projects.repoWithImages username it.1 it.2) = Prod.fst := by
      funext it
      exact repoWithImages_repo username it.1 it.2
    simp [Projects.assembleList, hfun, repoWithImages_repo]
  · simp [Projects.repoWithImages]

/-- C6: the detail-context failure handling.  The claim as stated fails
for a non-success status: the response body is parsed and published as
the document, not replaced by the placeholder. -/
theorem c6_counterexample :
    ProjectModal.fetchReadme sampleRepo (.response false [⟨some "/assets/x.png"⟩])
        ≠ .placeholder := by
  decide

/-- C6 (amended): the placeholder is published exactly when the fetch
throws (network/transport failure) or the rewrite step faults; the
response status is never inspected, so a non-success response is
processed exactly like a success and its body is published. -/
theorem c6_detail_failure_handling (repo : Repo) (ok : Bool) (doc : List Img) :
    ProjectModal.fetchReadme repo .netError = .placeholder
    ∧ ProjectModal.fetchReadme repo (.response ok doc)
        = ProjectModal.fetchReadme repo (.response true doc)
    ∧ (ProjectModal.rewriteImages repo doc = .error () →
        ProjectModal.fetchReadme repo (.response ok doc) = .placeholder)
    ∧ (∀ imgs, ProjectModal.rewriteImages repo doc = .ok imgs →
        ProjectModal.fetchReadme repo (.response ok doc) = .document imgs) := by
  refine ⟨rfl, rfl, fun h => ?_, fun imgs h => ?_⟩
  · simp [ProjectModal.fetchReadme, h]
  · simp [ProjectModal.fetchReadme, h]

/-- C6 witness: the amended failure handling evaluated at a concrete
faulting document. -/
theorem c6_witness :
    ProjectModal.rewriteImages sampleRepo [⟨none⟩] = .error ()
    ∧ ProjectModal.fetchReadme sampleRepo (.response false [⟨none⟩]) = .placeholder :=
  ⟨rfl, (c6_detail_failure_handling sampleRepo false [⟨none⟩]).2.2.1 rfl⟩

/-- C7: the language tagger takes the first three keys in response order
(fewer when the mapping is shorter); on the concrete 4-language mapping
it returns the first three names, on the empty mapping it returns the
empty sequence and the component renders nothing. -/
theorem c7_language_tagger (data : List (String × Nat)) :
    RepoLanguages.fetchLanguages (.response true (some data)) = (data.map Prod.fst).take 3
    ∧ RepoLanguages.fetchLanguages
        (.response true
          (some [("TypeScript", 500), ("CSS", 200), ("HTML", 100), ("Shell", 10)]))
        = ["TypeScript", "CSS", "HTML"]
    ∧ RepoLanguages.fetchLanguages (.response true (some [])) = []
    ∧ RepoLanguages.render [] = none :=
  ⟨rfl, by decide, rfl, rfl⟩

/-- C8: the language tagger failure taxonomy.  The claim as stated fails
for a non-success status whose body decodes as a JSON object: its keys
are exposed as tags instead of the empty tag set. -/
theorem c8_counterexample :
    RepoLanguages.fetchLanguages
        (.response false (some [("message", 0), ("documentation_url", 0)]))
      = ["message", "documentation_url"]
    ∧ RepoLanguages.fetchLanguages
        (.response false (some [("message", 0), ("documentation_url", 0)])) ≠ [] :=
  ⟨rfl, by decide⟩

/-- C8 (amended): a transport failure or an undecodable body yields the
empty tag set and no fault; the response status is never inspected, so
any response with a decodable body — success or not — exposes its first
three keys. -/
theorem c8_language_failure_handling (ok : Bool) (data : List (String × Nat)) :
    RepoLanguages.fetchLanguages .netError = []
    ∧ RepoLanguages.fetchLanguages (.response ok none) = []
    ∧ RepoLanguages.fetchLanguages (.response ok (some data)) = (data.map Prod.fst).take 3 :=
  ⟨rfl, rfl, rfl⟩

/-- C9: the no-stale-overwrite claim.  The claim as stated fails: on the
concrete trace where the fetch for the newly selected repository settles
before the still-in-flight fetch for the previous one, the late
resolution overwrites the newer document. -/
theorem c9_counterexample :
    (ProjectModal.run staleTrace).currentRepo = some otherRepo
    ∧ (ProjectModal.run staleTrace).readmeHtml
        = ProjectModal.fetchReadme sampleRepo (.response true [⟨some "a.png"⟩])
    ∧ (ProjectModal.run staleTrace).readmeHtml
        ≠ ProjectModal.fetchReadme otherRepo (.response true [⟨some "b.png"⟩]) := by
  decide

/-- C9 (amended): the fetcher is idle when no repository is selected (no
fetch is spawned) and re-fetches on each identity change (a fetch for the
new identity is spawned and `loading` is set); but an in-flight fetch has
no staleness guard: when it settles its result is written unconditionally,
whatever repository is currently selected. -/
theorem c9_refetch_and_unguarded_settle (s : ProjectModal.ModalState) (r : Repo)
    (f : ProjectModal.DetailFetch) :
    ProjectModal.step s (.select none) = { s with currentRepo := none }
    ∧ ProjectModal.step s (.select (some r))
        = { s with currentRepo := some r, inFlight := s.inFlight ++ [r], loading := true }
    ∧ (r ∈ s.inFlight →
        (ProjectModal.step s (.settle r f)).readmeHtml = ProjectModal.fetchReadme r f
        ∧ (ProjectModal.step s (.settle r f)).currentRepo = s.currentRepo) := by
  refine ⟨rfl, rfl, fun h => ?_⟩
  constructor
  · simp [ProjectModal.step, h]
  · simp [ProjectModal.step, h]

/-- C9 witness: the settle step evaluated at the concrete mid-trace state
with the stale fetch still in flight. -/
theorem c9_witness :
    sampleRepo ∈ midState.inFlight
    ∧ ((ProjectModal.step midState
          (.settle sampleRepo (.response true [⟨some "a.png"⟩]))).readmeHtml
        = ProjectModal.fetchReadme sampleRepo (.response true [⟨some "a.png"⟩])
      ∧ (ProjectModal.step midState
          (.settle sampleRepo (.response true [⟨some "a.png"⟩]))).currentRepo
        = midState.currentRepo) :=
  ⟨by decide,
   (c9_refetch_and_unguarded_settle midState sampleRepo
      (.response true [⟨some "a.png"⟩])).2.2 (by decide)⟩

/-- C10: in the detail context an image with no src attribute makes the
rewrite fault, and the whole document — other images included — is
replaced by the placeholder even though the request succeeded. -/
theorem c10_missing_src_placeholder (repo : Repo) (ok : Bool) (doc : List Img)
    (h : ∃ img ∈ doc, img.src = none) :
    ProjectModal.fetchReadme repo (.response ok doc) = .placeholder := by
  have herr : ProjectModal.rewriteImages repo doc = .error () :=
    rewriteImages_error_of_none repo doc h
  simp [ProjectModal.fetchReadme, herr]

/-- C10 witness: a concrete successful response whose document holds one
good image and one image with no src attribute. -/
theorem c10_witness :
    (∃ img ∈ [Img.mk (some "x.png"), Img.mk none], img.src = none)
    ∧ ProjectModal.fetchReadme sampleRepo
        (.response true [⟨some "x.png"⟩, ⟨none⟩]) = .placeholder :=
  ⟨by decide,
   c10_missing_src_placeholder sampleRepo true [⟨some "x.png"⟩, ⟨none⟩] (by decide)⟩
